import Mathlib

/-!
Verification of the MERX procurement-scraper repository (scraper.py, app.py,
streamlit_app.py) against its natural-language specification.

Python strings are modelled as Lean `String`s operated on through their
code-point lists (`String.data`), matching Python's code-point semantics for
`len`, slicing, `strip`, `lower`, `startswith` and `in`.  `datetime` values
produced by `datetime.strptime` with a pure date format are modelled as
(year, month, day) triples compared lexicographically, which is exactly how
Python compares two midnight datetimes.  `datetime.strptime` itself is
modelled after CPython's `_strptime` regex semantics for the directives that
appear in this repository (%Y, %m, %d, %b, %B and literal/whitespace
characters), including regex alternation order, backtracking, full-input
consumption, and the day-of-month validation performed by the `datetime`
constructor.
-/

namespace Merx

/-! ## Python string primitives -/

/-- Python `len(s)` (number of code points). -/
def pyLen (s : String) : Nat := s.data.length

/-- Python `s[:n]` slicing (first `n` code points). -/
def pySlice (s : String) (n : Nat) : String := ⟨s.data.take n⟩

/-- Python `a + b` on strings. -/
def pyConcat (a b : String) : String := ⟨a.data ++ b.data⟩

/-- Whether `p` is a prefix of `s` (Python `s.startswith(p)` on the lists). -/
def listStarts : List Char → List Char → Bool
  | [], _ => true
  | _ :: _, [] => false
  | a :: ps, b :: ss => a == b && listStarts ps ss

/-- Python `sub in s` on code-point lists. -/
def listContains (sub : List Char) : List Char → Bool
  | [] => sub.isEmpty
  | c :: rest => listStarts sub (c :: rest) || listContains sub rest

/-- Python `s.startswith(p)`. -/
def pyStartsWith (s p : String) : Bool := listStarts p.data s.data

/-- Python `sub in s`. -/
def pyContains (s sub : String) : Bool := listContains sub.data s.data

/-- Python `s.lower()` (ASCII case mapping, which covers every string the
repository compares after lowering). -/
def pyLower (s : String) : String := ⟨s.data.map Char.toLower⟩

def dropLeadingWs : List Char → List Char
  | [] => []
  | c :: rest => if c.isWhitespace then dropLeadingWs rest else c :: rest

/-- Python `s.strip()`. -/
def pyStrip (s : String) : String :=
  ⟨((dropLeadingWs s.data.reverse).reverse |> dropLeadingWs)⟩

/-! ## Dates -/

/-- A `datetime` as produced by `datetime.strptime` with a pure date format:
the time-of-day components are all zero, so only (year, month, day) matter. -/
structure Date where
  year : Nat
  month : Nat
  day : Nat
deriving DecidableEq, Repr

/-- Python `datetime` comparison `a <= b` (lexicographic on the fields). -/
def Date.le (a b : Date) : Bool :=
  decide (a.year < b.year) ||
    (a.year == b.year &&
      (decide (a.month < b.month) ||
        (a.month == b.month && decide (a.day ≤ b.day))))

/-- Python `datetime` comparison `a < b`. -/
def Date.lt (a b : Date) : Bool :=
  decide (a.year < b.year) ||
    (a.year == b.year &&
      (decide (a.month < b.month) ||
        (a.month == b.month && decide (a.day < b.day))))

def isLeap (y : Nat) : Bool :=
  y % 4 == 0 && (y % 100 != 0 || y % 400 == 0)

def daysInMonth (y m : Nat) : Nat :=
  if m == 2 then (if isLeap y then 29 else 28)
  else if m == 4 || m == 6 || m == 9 || m == 11 then 30
  else 31

/-! ## strptime model

CPython's `_strptime` compiles a format string into a regex:
`%Y ↦ \d\d\d\d`, `%m ↦ 1[0-2]|0[1-9]|[1-9]`, `%d ↦ 3[01]|[12]\d|0[1-9]|[1-9]`,
`%b`/`%B` ↦ an alternation of the (lower-cased, case-insensitively matched)
month names, a whitespace run in the format ↦ `\s+`, and any other character
matches itself.  The whole input must be consumed, and the resulting day is
validated against the month length by the `datetime` constructor. -/

inductive FmtTok where
  | lit : Char → FmtTok
  | ws : FmtTok
  | yearY : FmtTok
  | monthNum : FmtTok
  | dayNum : FmtTok
  | monthAbbr : FmtTok
  | monthFull : FmtTok
deriving DecidableEq, Repr

/-- Accumulated strptime fields; CPython defaults to 1900-01-01. -/
structure DAcc where
  y : Nat
  m : Nat
  d : Nat
deriving DecidableEq, Repr

def digitVal (c : Char) : Nat := c.toNat - 48

def charBetween (lo c hi : Char) : Bool :=
  decide (lo.toNat ≤ c.toNat) && decide (c.toNat ≤ hi.toNat)

/-- Candidate matches of `1[0-2]|0[1-9]|[1-9]`, in regex alternation order. -/
def monthCands : List Char → List (Nat × List Char)
  | c1 :: c2 :: rest =>
    (if c1 == '1' && charBetween '0' c2 '2' then [(10 + digitVal c2, rest)] else []) ++
    (if c1 == '0' && charBetween '1' c2 '9' then [(digitVal c2, rest)] else []) ++
    (if charBetween '1' c1 '9' then [(digitVal c1, c2 :: rest)] else [])
  | [c1] => if charBetween '1' c1 '9' then [(digitVal c1, [])] else []
  | [] => []

/-- Candidate matches of `3[01]|[12]\d|0[1-9]|[1-9]`, in regex order. -/
def dayCands : List Char → List (Nat × List Char)
  | c1 :: c2 :: rest =>
    (if c1 == '3' && (c2 == '0' || c2 == '1') then [(30 + digitVal c2, rest)] else []) ++
    (if (c1 == '1' || c1 == '2') && c2.isDigit then [(10 * digitVal c1 + digitVal c2, rest)] else []) ++
    (if c1 == '0' && charBetween '1' c2 '9' then [(digitVal c2, rest)] else []) ++
    (if charBetween '1' c1 '9' then [(digitVal c1, c2 :: rest)] else [])
  | [c1] => if charBetween '1' c1 '9' then [(digitVal c1, [])] else []
  | [] => []

/-- Case-insensitive match of a (lower-case) pattern, returning the rest. -/
def matchCI : List Char → List Char → Option (List Char)
  | [], cs => some cs
  | _ :: _, [] => none
  | p :: ps, c :: cs => if c.toLower == p then matchCI ps cs else none

def monthAbbrevs : List (String × Nat) :=
  [("jan", 1), ("feb", 2), ("mar", 3), ("apr", 4), ("may", 5), ("jun", 6),
   ("jul", 7), ("aug", 8), ("sep", 9), ("oct", 10), ("nov", 11), ("dec", 12)]

def monthFullNames : List (String × Nat) :=
  [("january", 1), ("february", 2), ("march", 3), ("april", 4), ("may", 5),
   ("june", 6), ("july", 7), ("august", 8), ("september", 9), ("october", 10),
   ("november", 11), ("december", 12)]

def leadingWsCount : List Char → Nat
  | [] => 0
  | c :: rest => if c.isWhitespace then leadingWsCount rest + 1 else 0

/-- Candidate (field update, remaining input) pairs for one directive, in the
order the compiled regex would try them (greedy for `\s+`). -/
def candidates : FmtTok → List Char → List ((DAcc → DAcc) × List Char)
  | .lit ch, cs =>
    match cs with
    | c :: rest => if c == ch then [(fun a => a, rest)] else []
    | [] => []
  | .ws, cs =>
    let n := leadingWsCount cs
    (List.range n).map (fun i => (fun a => a, cs.drop (n - i)))
  | .yearY, cs =>
    match cs with
    | a :: b :: c :: d :: rest =>
      if a.isDigit && b.isDigit && c.isDigit && d.isDigit then
        [(fun acc => {acc with y := 1000 * digitVal a + 100 * digitVal b + 10 * digitVal c + digitVal d}, rest)]
      else []
    | _ => []
  | .monthNum, cs => (monthCands cs).map (fun p => (fun a => {a with m := p.1}, p.2))
  | .dayNum, cs => (dayCands cs).map (fun p => (fun a => {a with d := p.1}, p.2))
  | .monthAbbr, cs =>
    monthAbbrevs.filterMap (fun nm =>
      (matchCI nm.1.data cs).map (fun rest => (fun a => {a with m := nm.2}, rest)))
  | .monthFull, cs =>
    monthFullNames.filterMap (fun nm =>
      (matchCI nm.1.data cs).map (fun rest => (fun a => {a with m := nm.2}, rest)))

/-- Backtracking regex match of a token list against the input; the whole
input must be consumed (`strptime` raises on unconverted data). -/
def runFmt : List FmtTok → List Char → DAcc → Option DAcc
  | [], cs, acc => if cs.isEmpty then some acc else none
  | t :: ts, cs, acc =>
    (candidates t cs).findSome? (fun p => runFmt ts p.2 (p.1 acc))

/-- `datetime.strptime(s, fmt)` for a pure date format: regex match, then the
`datetime(year, month, day)` constructor's range validation. -/
def strptimeDate (toks : List FmtTok) (s : String) : Option Date :=
  match runFmt toks s.data ⟨1900, 1, 1⟩ with
  | none => none
  | some acc =>
    if 1 ≤ acc.y ∧ 1 ≤ acc.m ∧ acc.m ≤ 12 ∧ 1 ≤ acc.d ∧ acc.d ≤ daysInMonth acc.y acc.m then
      some ⟨acc.y, acc.m, acc.d⟩
    else none

/-- Format `%Y-%m-%d`. -/
def fmtYmdDash : List FmtTok := [.yearY, .lit '-', .monthNum, .lit '-', .dayNum]
/-- Format `%Y/%m/%d`. -/
def fmtYmdSlash : List FmtTok := [.yearY, .lit '/', .monthNum, .lit '/', .dayNum]
/-- Format `%b %d, %Y`. -/
def fmtBdY : List FmtTok := [.monthAbbr, .ws, .dayNum, .lit ',', .ws, .yearY]
/-- Format `%B %d, %Y`. -/
def fmtBFulldY : List FmtTok := [.monthFull, .ws, .dayNum, .lit ',', .ws, .yearY]
/-- Format `%d/%m/%Y`. -/
def fmtDmySlash : List FmtTok := [.dayNum, .lit '/', .monthNum, .lit '/', .yearY]
/-- Format `%m/%d/%Y`. -/
def fmtMdySlash : List FmtTok := [.monthNum, .lit '/', .dayNum, .lit '/', .yearY]
/-- Format `%d-%m-%Y`. -/
def fmtDmyDash : List FmtTok := [.dayNum, .lit '-', .monthNum, .lit '-', .yearY]
/-- Format `%m-%d-%Y`. -/
def fmtMdyDash : List FmtTok := [.monthNum, .lit '-', .dayNum, .lit '-', .yearY]

/-- The ordered format list of `MERXScraper._parse_date` (scraper.py 158-167). -/
def dateFormats : List (List FmtTok) :=
  [fmtYmdDash, fmtYmdSlash, fmtBdY, fmtBFulldY, fmtDmySlash, fmtMdySlash,
   fmtDmyDash, fmtMdyDash]

/-- `MERXScraper._parse_date` (scraper.py 153-174): empty input yields `None`;
otherwise the stripped string is tried against the ordered format list and the
first successful parse wins; if every format fails the result is `None`. -/
def parse_date (date_str : String) : Option Date :=
  if date_str = "" then none
  else dateFormats.findSome? (fun fmt => strptimeDate fmt (pyStrip date_str))

/-! ## The Listing record (scraper.py) -/

/-- One scraped solicitation, the dictionary built in
`MERXScraper._scrape_page` (scraper.py 237-245). -/
structure Listing where
  title : String
  organization : String
  published_date : String
  closing_date : String
  link : String
  page : Nat
  scraped_at : String
deriving DecidableEq, Repr

/-- The append step of `MERXScraper._scrape_page` (scraper.py 236-246): the
extracted row joins the page results only when
`title and len(title) > 5`; `link or ""` turns an absent link into `""`.
The extracted field values and the `datetime.now().isoformat()` timestamp are
parameters. -/
def scrapePageRow (title organization published_date closing_date : String)
    (link : Option String) (page : Nat) (scraped_at : String) : Option Listing :=
  if title ≠ "" ∧ 5 < pyLen title then
    some ⟨title, organization, published_date, closing_date, link.getD "", page, scraped_at⟩
  else none

/-! ## Date-boundary filtering in `MERXScraper.scrape` -/

/-- The per-record retention test of the date filter in `MERXScraper.scrape`
(scraper.py 380-395): an empty published string is retained, an unparseable
one is retained ("include it to be safe"), and a parsed one is retained iff
it is on or after the minimum date. -/
def retainRecord (minD : Date) (published : String) : Bool :=
  if published = "" then true
  else
    match parse_date published with
    | some d => Date.le minD d
    | none => true

/-- The date-filter block of `MERXScraper.scrape` (scraper.py 376-401):
with no parsed minimum date every page result is kept, otherwise the records
are filtered by `retainRecord` in order. -/
def filterByDate (minDateObj : Option Date) (page_results : List Listing) : List Listing :=
  match minDateObj with
  | some minD => page_results.filter (fun r => retainRecord minD r.published_date)
  | none => page_results

/-- Parsing of the `min_published_date` argument at the top of
`MERXScraper.scrape` (scraper.py 335-341): a falsy (absent or empty) value or
a `%Y-%m-%d` parse failure leaves the filter disabled. -/
def minDateOf (min_published_date : Option String) : Option Date :=
  match min_published_date with
  | none => none
  | some s => if s = "" then none else strptimeDate fmtYmdDash s

/-! ## The pagination loop of `MERXScraper.scrape` -/

/-- The `while page <= max_pages` loop of `MERXScraper.scrape`
(scraper.py 367-409), with the page scrape and the next-button outcome as
oracles indexed by page number.  The fuel argument equals
`max_pages + 1 - page`, so running out of fuel is exactly the loop condition
failing.  Returns the accumulated results and the number of loop iterations
executed. -/
def scrapeLoopAux (pr : Nat → List Listing) (hn : Nat → Bool) (md : Option Date)
    (maxPages : Nat) : Nat → Nat → List Listing → List Listing × Nat
  | 0, _, acc => (acc, 0)
  | rem + 1, page, acc =>
    let acc2 := acc ++ filterByDate md (pr page)
    if page < maxPages then
      if hn page then
        let r := scrapeLoopAux pr hn md maxPages rem (page + 1) acc2
        (r.1, r.2 + 1)
      else (acc2, 1)
    else
      let r := scrapeLoopAux pr hn md maxPages rem (page + 1) acc2
      (r.1, r.2 + 1)

/-- The pagination loop entered at `page = 1` with an empty accumulator. -/
def scrapeLoop (pr : Nat → List Listing) (hn : Nat → Bool) (md : Option Date)
    (maxPages : Nat) : List Listing × Nat :=
  scrapeLoopAux pr hn md maxPages maxPages 1 []

/-- `MERXScraper.scrape` (scraper.py 320-421): parse the minimum date, load
the page (its source is the `pageSource` oracle), short-circuit on a detected
404 page with the still-empty accumulator, otherwise walk the pages.
Returns the result list and the number of page iterations performed. -/
def scrape (pageSource : String) (pr : Nat → List Listing) (hn : Nat → Bool)
    (maxPages : Nat) (min_published_date : Option String) : List Listing × Nat :=
  let md := minDateOf min_published_date
  if pyContains (pyLower pageSource) "error 404" then ([], 0)
  else scrapeLoop pr hn md maxPages

/-! ## The app.py scraping variant -/

/-- The raw values extracted from one solicitation card in app.py's scraping
loop (app.py 117-162): row title text, the `href` attribute, the publication
date text, and the description found when the detail page is opened. -/
structure Card where
  title : String
  href : String
  published : String
  description : String
deriving DecidableEq, Repr

/-- One entry of app.py's `entries` accumulator (app.py 157-162). -/
structure Entry where
  title : String
  link : String
  published : String
  description : String
deriving DecidableEq, Repr

/-- Relative-link resolution in app.py (128-129). -/
def resolveLink (href : String) : String :=
  if pyStartsWith href "/" then pyConcat "https://www.merx.com" href
  else href

/-- The body of app.py's per-card `try` block (app.py 119-165): a
`datetime.strptime(published, "%Y/%m/%d")` failure raises and the bare
`except: continue` drops the card; a parsed date before the minimum is
skipped; otherwise the entry is appended. -/
def processCard (minDate : Date) (c : Card) : Option Entry :=
  match strptimeDate fmtYmdSlash c.published with
  | none => none
  | some d =>
    if Date.lt d minDate then none
    else some ⟨c.title, resolveLink c.href, c.published, c.description⟩

/-- The `entries` accumulated over a card list by app.py's loop. -/
def collectEntries (minDate : Date) (cards : List Card) : List Entry :=
  cards.filterMap (processCard minDate)

/-! ## Classification (app.py 192-245) -/

/-- The `Text` column (app.py 202): `Title.fillna("") + ". " + Description.fillna("")`. -/
def textColumn (title description : Option String) : String :=
  pyConcat (pyConcat (title.getD "") ". ") (description.getD "")

/-- The classifier input (app.py 220): `str(text)[:1000]`. -/
def classifierInput (title description : Option String) : String :=
  pySlice (textColumn title description) 1000

/-- The label remapping (app.py 227-230): the one hardware label becomes the
exclusion sentinel, every other label passes through verbatim. -/
def finalLabel (label : String) : String :=
  if label = "Hardware/Instrument Requirement" then "Not Eligible (Hardware)"
  else label

/-- Python `round(x, 3)` (half-to-even), on exact rationals. -/
def round3 (q : ℚ) : ℚ :=
  let scaled := q * 1000
  let fl : ℤ := ⌊scaled⌋
  let frac := scaled - fl
  let r : ℤ :=
    if frac < 1 / 2 then fl
    else if 1 / 2 < frac then fl + 1
    else if fl % 2 = 0 then fl else fl + 1
  (r : ℚ) / 1000

/-- One classified row: the scraped entry plus the `Predicted_Category` and
`Confidence` columns (app.py 235-236). -/
structure ClassifiedRow where
  entry : Entry
  predicted : String
  confidence : ℚ
deriving DecidableEq, Repr

/-- The classification loop (app.py 218-236): for each entry the external
zero-shot classifier (the `clf` oracle) is applied to the truncated text; its
top label is remapped by `finalLabel` and its top score rounded to three
decimals. -/
def classifyEntries (clf : String → String × ℚ) (entries : List Entry) :
    List ClassifiedRow :=
  entries.map (fun e =>
    let res := clf (classifierInput (some e.title) (some e.description))
    ⟨e, finalLabel res.1, round3 res.2⟩)

/-- The fixed threshold (app.py 27). -/
def confidence_threshold : ℚ := 1 / 2

/-- The final result filter (app.py 242-245):
`(Predicted_Category != "Not Eligible (Hardware)") & (Confidence >= threshold)`. -/
def filterClassified (threshold : ℚ) (rows : List ClassifiedRow) : List ClassifiedRow :=
  rows.filter (fun r =>
    r.predicted != "Not Eligible (Hardware)" && decide (threshold ≤ r.confidence))

/-! ## The JSON artifact (scraper.py `save_results`, streamlit_app.py `load_data`)

The artifact is modelled at the level of the JSON value written and read; the
textual encoding and decoding in between are `json.dump` / `json.load` from
the Python standard library, an external collaborator (spec §1) whose
round-trip is its own contract and is modelled as the identity transport. -/

inductive JVal where
  | jstr : String → JVal
  | jnum : Nat → JVal
  | jarr : List JVal → JVal
  | jobj : List (String × JVal) → JVal

/-- The JSON object `save_results` writes for one listing: exactly the
dictionary built in `_scrape_page` (scraper.py 237-245). -/
def listingToJson (l : Listing) : JVal :=
  .jobj [("title", .jstr l.title), ("organization", .jstr l.organization),
         ("published_date", .jstr l.published_date),
         ("closing_date", .jstr l.closing_date), ("link", .jstr l.link),
         ("page", .jnum l.page), ("scraped_at", .jstr l.scraped_at)]

/-- `MERXScraper.save_results` (scraper.py 423-436): the artifact is the JSON
array of the listing dictionaries, in order. -/
def save_results (results : List Listing) : JVal :=
  .jarr (results.map listingToJson)

/-- Python dictionary lookup on a parsed JSON object. -/
def dictGet : List (String × JVal) → String → Option JVal
  | [], _ => none
  | (k, v) :: rest, key => if k = key then some v else dictGet rest key

/-- `d.get(key, dflt)` where the consumer expects a string value, as the
dashboard does for every text field (streamlit_app.py 380-384, 334). -/
def getStrD (kvs : List (String × JVal)) (key : String) (dflt : String) : String :=
  match dictGet kvs key with
  | some (.jstr s) => s
  | _ => dflt

/-- `d.get(key, dflt)` for the integer `page` field of the §3 schema. -/
def getNatD (kvs : List (String × JVal)) (key : String) (dflt : Nat) : Nat :=
  match dictGet kvs key with
  | some (.jnum n) => n
  | _ => dflt

/-- Reading one record back out of the loaded artifact through the
dashboard's `d.get(key, default)` access pattern, over the full §3 field set. -/
def jsonToListing : JVal → Option Listing
  | .jobj kvs =>
    some ⟨getStrD kvs "title" "", getStrD kvs "organization" "",
          getStrD kvs "published_date" "", getStrD kvs "closing_date" "",
          getStrD kvs "link" "", getNatD kvs "page" 0,
          getStrD kvs "scraped_at" ""⟩
  | _ => none

/-- Reading every record of the loaded array, in order; any non-record
element fails the load. -/
def decodeListings : List JVal → Option (List Listing)
  | [] => some []
  | j :: rest =>
    match jsonToListing j, decodeListings rest with
    | some l, some ls => some (l :: ls)
    | _, _ => none

/-- `load_data` (streamlit_app.py 95-106) on an existing artifact: the parsed
JSON value must be the array of records written by `save_results`. -/
def load_data : JVal → Option (List Listing)
  | .jarr items => decodeListings items
  | _ => none

/-! ## `trigger_workflow` (streamlit_app.py 180-210) -/

/-- The JSON body of the dispatch POST (streamlit_app.py 191-198). -/
def triggerPayload (search_term : String) (max_pages : Nat) (min_date : String) : JVal :=
  .jobj [("ref", .jstr "main"),
         ("inputs", .jobj [("search_term", .jstr search_term),
                           ("max_pages", .jstr (toString max_pages)),
                           ("min_published_date", .jstr min_date)])]

/-- What the `requests.post` call produced: a response with a status code and
body text, or a raised exception. -/
inductive HttpOutcome where
  | response : Nat → String → HttpOutcome
  | exn : String → HttpOutcome

/-- The response handling of `trigger_workflow` (streamlit_app.py 200-210):
`True` exactly on status 204; any other status or a raised exception yields
`False` together with the error messages surfaced via `st.error`. -/
def trigger_workflow : HttpOutcome → Bool × List String
  | .response code text =>
    if code = 204 then (true, [])
    else (false, [pyConcat "GitHub API Error: Status " (toString code),
                  pyConcat "Response: " text])
  | .exn msg => (false, [pyConcat "Error triggering workflow: " msg])

/-! ## Helper lemmas -/

theorem parse_date_iso_example : parse_date "2023-12-31" = some ⟨2023, 12, 31⟩ := by decide

theorem parse_date_iso_example2 : parse_date "2024-01-01" = some ⟨2024, 1, 1⟩ := by decide

theorem parse_date_garbage_example : parse_date "not a date" = none := by decide

theorem parse_date_textual_example : parse_date "Jan 05, 2024" = some ⟨2024, 1, 5⟩ := by decide

theorem parse_date_invalid_day_example : parse_date "2023-02-30" = none := by decide

theorem strptime_slash_example : strptimeDate fmtYmdSlash "2024/01/01" = some ⟨2024, 1, 1⟩ := by decide

theorem retainRecord_iff (minD : Date) (p : String) :
    retainRecord minD p = true ↔
      p = "" ∨ parse_date p = none ∨
        ∃ d, parse_date p = some d ∧ Date.le minD d = true := by
  unfold retainRecord
  by_cases hp : p = ""
  · simp [hp]
  · cases hd : parse_date p with
    | none => simp [hp, hd]
    | some d => simp [hp, hd]

theorem scrapeLoopAux_iterations_le (pr : Nat → List Listing) (hn : Nat → Bool)
    (md : Option Date) (maxPages : Nat) :
    ∀ rem page acc, (scrapeLoopAux pr hn md maxPages rem page acc).2 ≤ rem := by
  intro rem
  induction rem with
  | zero => intro page acc; simp [scrapeLoopAux]
  | succ n ih =>
    intro page acc
    simp only [scrapeLoopAux]
    split
    · split
      · have h := ih (page + 1) (acc ++ filterByDate md (pr page))
        simpa using Nat.succ_le_succ h
      · simp
    · have h := ih (page + 1) (acc ++ filterByDate md (pr page))
      simpa using Nat.succ_le_succ h

/-! ## Claim theorems -/

/-- Concrete listing used for the C1 example scenario. -/
def exListing (pub : String) : Listing :=
  ⟨"Example health opportunity", "Example Org", pub, "",
   "https://www.merx.com/notice/0", 1, "2025-10-12T00:00:00"⟩

/-- Claim C1: in `MERXScraper.scrape`, a scraped record passes the
date-boundary filter iff its published-date string is empty, or fails to
parse against the ordered format list, or parses to a date on or after the
cutoff; with cutoff 2024-01-01 the records published "2023-12-31",
"2024-01-01" and "not a date" yield exactly the retained records
"2024-01-01" and "not a date". -/
theorem date_boundary_filtering :
    (∀ (minD : Date) (rs : List Listing) (r : Listing),
        r ∈ filterByDate (some minD) rs ↔
          r ∈ rs ∧ (r.published_date = "" ∨ parse_date r.published_date = none ∨
            ∃ d, parse_date r.published_date = some d ∧ Date.le minD d = true)) ∧
      filterByDate (minDateOf (some "2024-01-01"))
          [exListing "2023-12-31", exListing "2024-01-01", exListing "not a date"] =
        [exListing "2024-01-01", exListing "not a date"] := by
  constructor
  · intro minD rs r
    simp [filterByDate, List.mem_filter, retainRecord_iff]
  · decide

/-- Claim C2: for every `max_pages ≥ 1`, the pagination loop of
`MERXScraper.scrape` performs at most `max_pages` page iterations, for every
next-button oracle — in particular when a next control is always present and
clickable. -/
theorem pagination_termination (pr : Nat → List Listing) (hn : Nat → Bool)
    (md : Option Date) (maxPages : Nat) (_h : 1 ≤ maxPages) :
    (scrapeLoop pr hn md maxPages).2 ≤ maxPages :=
  scrapeLoopAux_iterations_le pr hn md maxPages maxPages 1 []

/-- Witness for C2: at `max_pages = 3` with a next button that is always
present and clickable, the loop runs at most 3 iterations. -/
theorem pagination_termination_witness :
    1 ≤ 3 ∧ (scrapeLoop (fun _ => []) (fun _ => true) none 3).2 ≤ 3 :=
  ⟨by decide, pagination_termination (fun _ => []) (fun _ => true) none 3 (by decide)⟩

/-- Claim C8: when the loaded page source contains the error-404 marker,
`MERXScraper.scrape` returns the empty result list having performed zero page
iterations, for every page oracle, next-button oracle, page limit and minimum
date. -/
theorem http_error_short_circuit (pageSource : String) (pr : Nat → List Listing)
    (hn : Nat → Bool) (maxPages : Nat) (mpd : Option String)
    (h : pyContains (pyLower pageSource) "error 404" = true) :
    scrape pageSource pr hn maxPages mpd = ([], 0) := by
  unfold scrape
  rw [if_pos h]

/-- Witness for C8: a concrete 404 page short-circuits a scrape that would
otherwise find a listing on every page. -/
theorem http_error_short_circuit_witness :
    pyContains (pyLower "<html>Error 404 - Page Not Found</html>") "error 404" = true ∧
      scrape "<html>Error 404 - Page Not Found</html>"
        (fun _ => [⟨"Some health listing", "Org", "2024-05-01", "", "", 1, ""⟩])
        (fun _ => true) 5 (some "2024-01-01") = ([], 0) :=
  ⟨by decide,
   http_error_short_circuit "<html>Error 404 - Page Not Found</html>"
     (fun _ => [⟨"Some health listing", "Org", "2024-05-01", "", "", 1, ""⟩])
     (fun _ => true) 5 (some "2024-01-01") (by decide)⟩

theorem scrapePageRow_of_gt (t o p c : String) (lk : Option String) (pg : Nat)
    (sa : String) (h : 5 < pyLen t) :
    scrapePageRow t o p c lk pg sa = some ⟨t, o, p, c, lk.getD "", pg, sa⟩ := by
  unfold scrapePageRow
  rw [if_pos]
  refine ⟨?_, h⟩
  intro e
  subst e
  exact absurd h (by decide)

theorem scrapePageRow_of_le (t o p c : String) (lk : Option String) (pg : Nat)
    (sa : String) (h : pyLen t ≤ 5) :
    scrapePageRow t o p c lk pg sa = none := by
  unfold scrapePageRow
  rw [if_neg]
  rintro ⟨-, h2⟩
  omega

theorem scrapePageRow_isSome_iff (t o p c : String) (lk : Option String) (pg : Nat)
    (sa : String) :
    (scrapePageRow t o p c lk pg sa).isSome = true ↔ 5 < pyLen t := by
  by_cases h : 5 < pyLen t
  · rw [scrapePageRow_of_gt t o p c lk pg sa h]
    simp [h]
  · rw [scrapePageRow_of_le t o p c lk pg sa (by omega)]
    simp [h]

/-- Claim C10: `MERXScraper._scrape_page` appends an extracted row iff its
title is strictly longer than 5 characters; in particular a row with a
non-empty title of at most 5 characters is dropped, a strictly stronger
condition than a bare non-empty-title requirement. -/
theorem title_length_gate :
    ∀ (t o p c : String) (lk : Option String) (pg : Nat) (sa : String),
      ((scrapePageRow t o p c lk pg sa).isSome = true ↔ 5 < pyLen t) ∧
        (t ≠ "" → pyLen t ≤ 5 → scrapePageRow t o p c lk pg sa = none) := by
  intro t o p c lk pg sa
  exact ⟨scrapePageRow_isSome_iff t o p c lk pg sa,
         fun _ h => scrapePageRow_of_le t o p c lk pg sa h⟩

/-- Witness for C10: the non-empty 3-character title "RFP" is dropped while a
longer title is kept. -/
theorem title_length_gate_witness :
    scrapePageRow "RFP" "Org" "" "" none 1 "" = none ∧
      (scrapePageRow "Health services RFP" "Org" "" "" none 1 "").isSome = true :=
  ⟨(title_length_gate "RFP" "Org" "" "" none 1 "").2 (by decide) (by decide),
   (title_length_gate "Health services RFP" "Org" "" "" none 1 "").1.mpr (by decide)⟩

theorem mem_filterClassified (th : ℚ) (rows : List ClassifiedRow) (r : ClassifiedRow) :
    r ∈ filterClassified th rows ↔
      r ∈ rows ∧ r.predicted ≠ "Not Eligible (Hardware)" ∧ th ≤ r.confidence := by
  simp [filterClassified, List.mem_filter, and_assoc]

/-- Entry with an empty title used to refute claim C3. -/
def cexEntry : Entry :=
  ⟨"", "https://www.merx.com/notice/1", "2024/01/01", "an IT services opportunity"⟩

/-- Classifier oracle that labels everything "IT Services" with score 0.9. -/
def cexClf : String → String × ℚ := fun _ => ("IT Services", 9 / 10)

theorem round3_nine_tenths : round3 ((9:ℚ)/10) = 9/10 := by
  unfold round3
  norm_num

/-- Counterexample to claim C3 as stated: in the app.py pipeline a scraped
listing with an EMPTY title, classified "IT Services" at confidence 0.9, is
retained in the final filtered output, so retention does not require a
non-empty title. -/
theorem retention_invariant_cex :
    cexEntry.title = "" ∧
      filterClassified confidence_threshold (classifyEntries cexClf [cexEntry]) =
        classifyEntries cexClf [cexEntry] ∧
      (classifyEntries cexClf [cexEntry]).length = 1 := by
  refine ⟨rfl, ?_, rfl⟩
  have hr : classifyEntries cexClf [cexEntry] = [⟨cexEntry, "IT Services", (9:ℚ)/10⟩] := by
    simp [classifyEntries, cexClf, finalLabel, round3_nine_tenths]
  rw [hr]
  simp [filterClassified, confidence_threshold]
  norm_num

/-- Claim C3 (amended): in the classified (app.py) pipeline a row is retained
in the final filtered output iff its predicted category is not the exclusion
sentinel and its confidence is at least the threshold — the title is not
consulted by that filter; in the unclassified (scraper.py) pipeline a row is
retained at extraction iff its title is strictly longer than 5 characters
(not merely non-empty). -/
theorem retention_invariant_amended :
    (∀ (th : ℚ) (rows : List ClassifiedRow) (r : ClassifiedRow),
        r ∈ filterClassified th rows ↔
          r ∈ rows ∧ r.predicted ≠ "Not Eligible (Hardware)" ∧ th ≤ r.confidence) ∧
      ∀ (t o p c : String) (lk : Option String) (pg : Nat) (sa : String),
        (scrapePageRow t o p c lk pg sa).isSome = true ↔ 5 < pyLen t :=
  ⟨mem_filterClassified, scrapePageRow_isSome_iff⟩

/-- Entry and oracle for the C4 hardware scenario. -/
def hwEntry : Entry :=
  ⟨"MRI machine procurement", "https://www.merx.com/notice/2", "2024/01/02",
   "hardware purchase"⟩

/-- Classifier oracle returning the hardware label with score 0.9. -/
def hwClf : String → String × ℚ := fun _ => ("Hardware/Instrument Requirement", 9 / 10)

/-- A classified row already carrying the exclusion sentinel. -/
def hwRow : ClassifiedRow := ⟨hwEntry, "Not Eligible (Hardware)", 9 / 10⟩

/-- Claim C4: the top label "Hardware/Instrument Requirement" is remapped to
the sentinel "Not Eligible (Hardware)" and such a record is excluded from the
final output regardless of its confidence (e.g. at score 0.9 with threshold
0.5); every other top label is stored verbatim. -/
theorem exclusion_sentinel_remapping :
    finalLabel "Hardware/Instrument Requirement" = "Not Eligible (Hardware)" ∧
      (∀ label : String, label ≠ "Hardware/Instrument Requirement" →
        finalLabel label = label) ∧
      (∀ (th : ℚ) (rows : List ClassifiedRow) (r : ClassifiedRow),
        r.predicted = "Not Eligible (Hardware)" → r ∉ filterClassified th rows) ∧
      filterClassified confidence_threshold (classifyEntries hwClf [hwEntry]) = [] := by
  refine ⟨rfl, ?_, ?_, by simp [classifyEntries, hwClf, finalLabel, filterClassified]⟩
  · intro label hl
    simp [finalLabel, hl]
  · intro th rows r hpred hmem
    rw [mem_filterClassified] at hmem
    exact hmem.2.1 hpred

/-- Witness for C4: a non-hardware label passes through verbatim, and a row
carrying the sentinel at confidence 0.9 is excluded at threshold 0.5. -/
theorem exclusion_sentinel_remapping_witness :
    finalLabel "IT Services" = "IT Services" ∧
      hwRow ∉ filterClassified confidence_threshold [hwRow] :=
  ⟨exclusion_sentinel_remapping.2.1 "IT Services" (by decide),
   exclusion_sentinel_remapping.2.2.1 confidence_threshold [hwRow] hwRow (by decide)⟩

/-- Claim C5: in the app.py variant, a card whose published-date text does not
parse with the single format `%Y/%m/%d` raises in `strptime`, is skipped by
the bare `except`, and contributes nothing to the accumulated entries. -/
theorem app_unparseable_date_drops (minD : Date) (c : Card)
    (h : strptimeDate fmtYmdSlash c.published = none) :
    processCard minD c = none ∧
      ∀ pre post : List Card,
        collectEntries minD (pre ++ c :: post) = collectEntries minD (pre ++ post) := by
  have h1 : processCard minD c = none := by
    unfold processCard
    rw [h]
  refine ⟨h1, ?_⟩
  intro pre post
  simp [collectEntries, List.filterMap_append, List.filterMap_cons, h1]

/-- Card whose published date is in a format the app.py variant cannot parse. -/
def c5Card : Card := ⟨"Health data platform", "/public/notice/3", "Dec 31, 2023", "desc"⟩

/-- Witness for C5: the published date "Dec 31, 2023" fails `%Y/%m/%d`, so the
card is dropped from the entries. -/
theorem app_unparseable_date_drops_witness :
    strptimeDate fmtYmdSlash c5Card.published = none ∧
      processCard ⟨2024, 1, 1⟩ c5Card = none ∧
      collectEntries ⟨2024, 1, 1⟩ [c5Card] = [] :=
  ⟨by decide, (app_unparseable_date_drops ⟨2024, 1, 1⟩ c5Card (by decide)).1, by decide⟩

/-- Claim C6: `trigger_workflow` posts the JSON body
`{"ref": "main", "inputs": {"search_term": ..., "max_pages": str(max_pages),
"min_published_date": ...}}` and returns `True` iff the response status is
204; every other status, and a raised request exception, yields `False` with
an error message surfaced. -/
theorem remote_rerun_dispatch :
    (∀ (s : String) (mp : Nat) (md : String),
        triggerPayload s mp md =
          .jobj [("ref", .jstr "main"),
                 ("inputs", .jobj [("search_term", .jstr s),
                                   ("max_pages", .jstr (toString mp)),
                                   ("min_published_date", .jstr md)])]) ∧
      (∀ o : HttpOutcome, (trigger_workflow o).1 = true ↔ ∃ t, o = .response 204 t) ∧
      (∀ o : HttpOutcome, (trigger_workflow o).1 = false → (trigger_workflow o).2 ≠ []) := by
  refine ⟨fun s mp md => rfl, ?_, ?_⟩
  · intro o
    cases o with
    | response code text =>
      by_cases hc : code = 204
      · subst hc
        simp [trigger_workflow]
      · simp [trigger_workflow, hc]
    | exn m => simp [trigger_workflow]
  · intro o
    cases o with
    | response code text =>
      by_cases hc : code = 204
      · subst hc
        simp [trigger_workflow]
      · simp [trigger_workflow, hc]
    | exn m => simp [trigger_workflow]

/-- Witness for C6: a 500 response makes `trigger_workflow` surface an error. -/
theorem remote_rerun_dispatch_witness :
    (trigger_workflow (.response 500 "bad credentials")).2 ≠ [] :=
  remote_rerun_dispatch.2.2 (.response 500 "bad credentials") (by decide)

theorem jsonToListing_listingToJson (l : Listing) :
    jsonToListing (listingToJson l) = some l := rfl

theorem decodeListings_map (rs : List Listing) :
    decodeListings (rs.map listingToJson) = some rs := by
  induction rs with
  | nil => rfl
  | cons l rest ih =>
    simp [decodeListings, jsonToListing_listingToJson, ih]

/-- Claim C7: writing any listing list with `save_results` and reading the
artifact back through `load_data`'s access pattern yields a field-for-field
equal record list. -/
theorem artifact_round_trip :
    ∀ rs : List Listing, load_data (save_results rs) = some rs :=
  fun rs => decodeListings_map rs

/-- Claim C9: the text sent to the zero-shot classifier is exactly the first
1000 characters of `title + ". " + description` (missing fields replaced by
the empty string), hence every classifier input is at most 1000 characters
long. -/
theorem classifier_input_bound :
    ∀ title description : Option String,
      classifierInput title description =
          pySlice (pyConcat (pyConcat (title.getD "") ". ") (description.getD "")) 1000 ∧
        pyLen (classifierInput title description) ≤ 1000 := by
  intro t d
  refine ⟨rfl, ?_⟩
  show (List.take 1000 (textColumn t d).data).length ≤ 1000
  rw [List.length_take]
  exact Nat.min_le_left _ _

end Merx
